import Mathlib

/-!
Verification development for the tool-calling core of a terminal coding agent
(`src/terminal_agent/agent.py`).  The Python source is shallowly embedded:
pure helpers become Lean functions, the process-external world (path
resolution, the interactive prompt, the subprocess runner, the web tools and
the model transport) is an explicit `Env` of oracle functions, the file system
is an explicit map from resolved paths to contents, and observable side
effects (prompting the user, invoking the shell, writing a file) are recorded
in an explicit effect trace.  Python exceptions are modelled with `Except`:
a function that can raise returns `Except PyExc _`, and the `try/except`
blocks of the source are the places where such errors are converted back to
result dictionaries.
-/

set_option maxHeartbeats 4000000
set_option maxRecDepth 100000

namespace TerminalAgent

/-! ### Python string helpers (`str.count`, `str.replace(_, _, 1)`, `str.split`, `str.strip`) -/

/-- Does the char list `s` start with `sub`?  (Python `str.startswith`.) -/
def startsWithL : List Char → List Char → Bool
  | [], _ => true
  | _ :: _, [] => false
  | a :: as, b :: bs => a == b && startsWithL as bs

theorem startsWithL_iff (sub s : List Char) :
    startsWithL sub s = true ↔ ∃ t, s = sub ++ t := by
  induction sub generalizing s with
  | nil => simp [startsWithL]
  | cons a as ih =>
    cases s with
    | nil => simp [startsWithL]
    | cons b bs =>
      simp only [startsWithL, Bool.and_eq_true, beq_iff_eq, ih, List.cons_append,
        List.cons.injEq]
      constructor
      · rintro ⟨rfl, t, rfl⟩; exact ⟨t, rfl, rfl⟩
      · rintro ⟨t, rfl, rfl⟩; exact ⟨rfl, t, rfl⟩

/-- Non-overlapping occurrence count for a nonempty needle `c0 :: sub`,
walking the text one character at a time.  `skip > 0` means that many
characters of a just-matched occurrence still have to be passed over before
scanning resumes — this realises the skip of the needle length that makes
Python `str.count` non-overlapping. -/
def pyCountF (c0 : Char) (sub : List Char) : Nat → List Char → Nat
  | _, [] => 0
  | skip + 1, _ :: rest => pyCountF c0 sub skip rest
  | 0, c :: rest =>
    if startsWithL (c0 :: sub) (c :: rest) then 1 + pyCountF c0 sub sub.length rest
    else pyCountF c0 sub 0 rest

/-- Python `s.count(sub)` on char lists: non-overlapping occurrences, and
`len(s) + 1` for the empty needle. -/
def pyCountL (sub s : List Char) : Nat :=
  match sub with
  | [] => s.length + 1
  | c0 :: sub' => pyCountF c0 sub' 0 s

/-- Replace the first occurrence of the nonempty needle `c0 :: sub` by `new`. -/
def pyReplaceFirstNE (c0 : Char) (sub new : List Char) : List Char → List Char
  | [] => []
  | c :: rest =>
    if startsWithL (c0 :: sub) (c :: rest) then new ++ rest.drop sub.length
    else c :: pyReplaceFirstNE c0 sub new rest

/-- Python `s.replace(sub, new, 1)` on char lists.  For the empty needle the
replacement text is inserted in front, as Python does. -/
def pyReplaceFirstL (sub new s : List Char) : List Char :=
  match sub with
  | [] => new ++ s
  | c0 :: sub' => pyReplaceFirstNE c0 sub' new s

/-- Python `text.split(chr(10))` on char lists: keeps empty pieces, and the
split of the empty text is one empty piece. -/
def pySplitNlL : List Char → List (List Char)
  | [] => [[]]
  | c :: rest =>
    if c = '\n' then [] :: pySplitNlL rest
    else
      match pySplitNlL rest with
      | [] => [[c]]
      | h :: t => (c :: h) :: t

/-- Python `text.split(chr(10))` on strings. -/
def pySplitNl (s : String) : List String := (pySplitNlL s.data).map String.mk

/-- Python `chr(10).join(xs)`. -/
def joinNl (xs : List String) : String := String.intercalate "\n" xs

/-- Python `xs[-n:]` for `n > 0`: the last `min n (length xs)` elements. -/
def lastN (n : Nat) (xs : List String) : List String := xs.drop (xs.length - n)

/-- The ASCII whitespace class recognised by Python `str.strip` and `\s`. -/
def isPySpace (c : Char) : Bool :=
  c = ' ' || c = '\t' || c = '\n' || c = '\r' || c = '\x0b' || c = '\x0c'

/-- Python `s.strip()` (restricted to ASCII whitespace). -/
def pyStrip (s : String) : String :=
  String.mk (((s.data.dropWhile isPySpace).reverse.dropWhile isPySpace).reverse)

/-- Python `s.lower()` (via `Char.toLower`). -/
def pyLower (s : String) : String := String.mk (s.data.map Char.toLower)

/-- First `n` characters of a string (Python `s[:n]`). -/
def strTake (n : Nat) (s : String) : String := String.mk (s.data.take n)

/-! ### A small regular-expression engine

Models `re.search(pattern, command, re.IGNORECASE)` for exactly the regex
constructs that occur in the source's `DANGEROUS_PATTERNS` table: literal
characters, character classes, `.`, `\s`, `\b`, `$`, concatenation,
alternation, `*` and `+`.  Matching is case-insensitive.  The matcher
enumerates, for a given start state, all states `(previous char, remaining
suffix)` in which a match of the expression can end; fuel makes it total, and
the fuel supplied by `reSearchIC` exceeds the maximal recursion depth. -/

/-- One item of a regex character class: a single char or a range. -/
inductive ClsItem
  | one (c : Char)
  | rng (lo hi : Char)

/-- Regex abstract syntax for the constructs used by the pattern table. -/
inductive Reg
  | lit (c : Char)
  | cls (items : List ClsItem)
  | anyc
  | ws
  | wb
  | eos
  | emp
  | seq (a b : Reg)
  | alt (a b : Reg)
  | star (a : Reg)

/-- Concatenation of a list of regexes. -/
def Reg.seqs : List Reg → Reg
  | [] => .emp
  | [r] => r
  | r :: rest => .seq r (Reg.seqs rest)

/-- A literal string as a regex. -/
def Reg.lits (s : String) : Reg := Reg.seqs (s.data.map Reg.lit)

/-- The regex `r+` as `r r*`. -/
def Reg.rep1 (r : Reg) : Reg := .seq r (.star r)

/-- Alternation of a list of regexes (empty list never matches). -/
def Reg.alts : List Reg → Reg
  | [] => .cls []
  | [r] => r
  | r :: rest => .alt r (Reg.alts rest)

/-- Does a class item contain the char (exact comparison)? -/
def clsItemHas : ClsItem → Char → Bool
  | .one c, a => a == c
  | .rng lo hi, a => decide (lo ≤ a) && decide (a ≤ hi)

/-- Class membership under `re.IGNORECASE`: the char matches if it, its
lowercase or its uppercase form is in the class. -/
def clsHas (items : List ClsItem) (a : Char) : Bool :=
  items.any fun it =>
    clsItemHas it a || clsItemHas it a.toLower || clsItemHas it a.toUpper

/-- Python `\w` (ASCII): letters, digits, underscore. -/
def isWordChar (c : Char) : Bool := c.isAlphanum || c = '_'

/-- Regex size, used to compute an adequate fuel. -/
def Reg.osize : Reg → Nat
  | .seq a b => a.osize + b.osize + 1
  | .alt a b => a.osize + b.osize + 1
  | .star a => a.osize + 1
  | _ => 1

/-- All end states of a match of `r` starting in state `(prev, s)`:
`prev` is the character just before the current position (for `\b`),
`s` the remaining input.  In the `star` case an iteration is only taken when
it consumed at least one character; empty iterations add nothing. -/
def mtch : Nat → Reg → Option Char → List Char → List (Option Char × List Char)
  | 0, _, _, _ => []
  | fuel + 1, r, prev, s =>
    match r with
    | .lit c =>
      match s with
      | [] => []
      | a :: rest => if a.toLower = c.toLower then [(some a, rest)] else []
    | .cls items =>
      match s with
      | [] => []
      | a :: rest => if clsHas items a then [(some a, rest)] else []
    | .anyc =>
      match s with
      | [] => []
      | a :: rest => if a = '\n' then [] else [(some a, rest)]
    | .ws =>
      match s with
      | [] => []
      | a :: rest => if isPySpace a then [(some a, rest)] else []
    | .wb =>
      let before := match prev with | none => false | some c => isWordChar c
      let after := match s with | [] => false | a :: _ => isWordChar a
      if before != after then [(prev, s)] else []
    | .eos => if s = [] ∨ s = ['\n'] then [(prev, s)] else []
    | .emp => [(prev, s)]
    | .seq r1 r2 => (mtch fuel r1 prev s).flatMap fun ps => mtch fuel r2 ps.1 ps.2
    | .alt r1 r2 => mtch fuel r1 prev s ++ mtch fuel r2 prev s
    | .star r1 =>
      (prev, s) :: (mtch fuel r1 prev s).flatMap fun ps =>
        if ps.2.length < s.length then mtch fuel (.star r1) ps.1 ps.2 else []

/-- Try to match `r` at the current position, else advance one char
(`re.search` tries every start position). -/
def searchAt (fuel : Nat) (r : Reg) : Option Char → List Char → Bool
  | prev, [] => !(mtch fuel r prev []).isEmpty
  | prev, a :: rest =>
    !(mtch fuel r prev (a :: rest)).isEmpty || searchAt fuel r (some a) rest

/-- Python `re.search(r, s, re.IGNORECASE)` as a Boolean. -/
def reSearchIC (r : Reg) (s : String) : Bool :=
  searchAt ((s.data.length + 2) * (r.osize + 2) * 2) r none s.data

/-! ### The dangerous-pattern table (`DANGEROUS_PATTERNS`)

Each entry is the regex of the source table (given in a comment), written as
a `Reg` value, paired with its explanation string copied verbatim. -/

/-- Regex `\s*`. -/
def wsStar : Reg := .star .ws

/-- Regex `\s+`. -/
def wsPlus : Reg := Reg.rep1 .ws

/-- Regex class `[a-zA-Z]`. -/
def alphaCls : Reg := .cls [.rng 'a' 'z', .rng 'A' 'Z']

/-- Regex class `[a-z]`. -/
def lowerCls : Reg := .cls [.rng 'a' 'z']

/-- The character with code 123 (opening curly bracket). -/
def lcurly : Char := Char.ofNat 123

/-- The character with code 125 (closing curly bracket). -/
def rcurly : Char := Char.ofNat 125

/-- Regex `rm\s+(-[a-zA-Z]*)*\s*-rf\s+/` -/
def patRmRfRoot : Reg :=
  Reg.seqs [.lits "rm", wsPlus, .star (Reg.seqs [.lit '-', .star alphaCls]),
    wsStar, .lits "-rf", wsPlus, .lit '/']

/-- Regex `rm\s+(-[a-zA-Z]*)*\s*-rf\s+/\*` -/
def patRmRfRootStar : Reg :=
  Reg.seqs [.lits "rm", wsPlus, .star (Reg.seqs [.lit '-', .star alphaCls]),
    wsStar, .lits "-rf", wsPlus, .lit '/', .lit '*']

/-- Regex `rm\s+(-[a-zA-Z]*)*\s*-rf\s+~` -/
def patRmRfHome : Reg :=
  Reg.seqs [.lits "rm", wsPlus, .star (Reg.seqs [.lit '-', .star alphaCls]),
    wsStar, .lits "-rf", wsPlus, .lit '~']

/-- Regex `mkfs\.` -/
def patMkfs : Reg := Reg.lits "mkfs."

/-- Regex `dd\s+.*if=/dev/(zero|random|urandom).*of=/dev/[a-z]` -/
def patDd : Reg :=
  Reg.seqs [.lits "dd", wsPlus, .star .anyc, .lits "if=/dev/",
    Reg.alts [.lits "zero", .lits "random", .lits "urandom"],
    .star .anyc, .lits "of=/dev/", lowerCls]

/-- Regex `>\s*/dev/[a-z]d[a-z]` -/
def patRedirDisk : Reg :=
  Reg.seqs [.lit '>', wsStar, .lits "/dev/", lowerCls, .lit 'd', lowerCls]

/-- Regex `shred\s+.*(/dev/[a-z]|/boot|/etc|/usr|/var)` -/
def patShred : Reg :=
  Reg.seqs [.lits "shred", wsPlus, .star .anyc,
    Reg.alts [Reg.seqs [.lits "/dev/", lowerCls], .lits "/boot", .lits "/etc",
      .lits "/usr", .lits "/var"]]

/-- The fork-bomb regex: colon, escaped parens, whitespace-separated colon,
pipe, colon, ampersand inside escaped curly brackets, semicolon, colon. -/
def patForkBomb : Reg :=
  Reg.seqs [.lit ':', .lit '(', .lit ')', wsStar, .lit lcurly, wsStar, .lit ':',
    wsStar, .lit '|', wsStar, .lit ':', wsStar, .lit '&', wsStar, .lit rcurly,
    wsStar, .lit ';', wsStar, .lit ':']

/-- Regex `chmod\s+(-[a-zA-Z]*\s+)*777\s+/` -/
def patChmod777 : Reg :=
  Reg.seqs [.lits "chmod", wsPlus, .star (Reg.seqs [.lit '-', .star alphaCls, wsPlus]),
    .lits "777", wsPlus, .lit '/']

/-- Regex `chmod\s+(-[a-zA-Z]*\s+)*000\s+/` -/
def patChmod000 : Reg :=
  Reg.seqs [.lits "chmod", wsPlus, .star (Reg.seqs [.lit '-', .star alphaCls, wsPlus]),
    .lits "000", wsPlus, .lit '/']

/-- Regex `chmod\s+.*-R\s+.*\s+/\s*$` -/
def patChmodRecRoot : Reg :=
  Reg.seqs [.lits "chmod", wsPlus, .star .anyc, .lits "-R", wsPlus, .star .anyc,
    wsPlus, .lit '/', wsStar, .eos]

/-- Regex `chown\s+.*-R\s+.*\s+/\s*$` -/
def patChownRecRoot : Reg :=
  Reg.seqs [.lits "chown", wsPlus, .star .anyc, .lits "-R", wsPlus, .star .anyc,
    wsPlus, .lit '/', wsStar, .eos]

/-- Regex `\bshutdown\b` -/
def patShutdown : Reg := Reg.seqs [.wb, .lits "shutdown", .wb]

/-- Regex `\breboot\b` -/
def patReboot : Reg := Reg.seqs [.wb, .lits "reboot", .wb]

/-- Regex `\bpoweroff\b` -/
def patPoweroff : Reg := Reg.seqs [.wb, .lits "poweroff", .wb]

/-- Regex `\bhalt\b` -/
def patHalt : Reg := Reg.seqs [.wb, .lits "halt", .wb]

/-- Regex `\binit\s+[06]\b` -/
def patInit06 : Reg :=
  Reg.seqs [.wb, .lits "init", wsPlus, .cls [.one '0', .one '6'], .wb]

/-- Regex `kill\s+-9\s+-1` -/
def patKillAll : Reg := Reg.seqs [.lits "kill", wsPlus, .lits "-9", wsPlus, .lits "-1"]

/-- Regex `>\s*/etc/passwd` -/
def patRedirPasswd : Reg := Reg.seqs [.lit '>', wsStar, .lits "/etc/passwd"]

/-- Regex `>\s*/etc/shadow` -/
def patRedirShadow : Reg := Reg.seqs [.lit '>', wsStar, .lits "/etc/shadow"]

/-- Regex `rm\s+.*(/etc/passwd|/etc/shadow|/etc/sudoers)` -/
def patRmAuth : Reg :=
  Reg.seqs [.lits "rm", wsPlus, .star .anyc,
    Reg.alts [.lits "/etc/passwd", .lits "/etc/shadow", .lits "/etc/sudoers"]]

/-- Regex `iptables\s+-F` -/
def patIptablesF : Reg := Reg.seqs [.lits "iptables", wsPlus, .lits "-F"]

/-- Regex `ufw\s+disable` -/
def patUfwDisable : Reg := Reg.seqs [.lits "ufw", wsPlus, .lits "disable"]

/-- The `DANGEROUS_PATTERNS` table, in source order, with the explanation
strings copied verbatim. -/
def DANGEROUS_PATTERNS : List (Reg × String) :=
  [(patRmRfRoot, "Recursively deletes the entire filesystem starting from root - would destroy the operating system and all data"),
   (patRmRfRootStar, "Deletes everything in the root directory - equivalent to wiping the entire system"),
   (patRmRfHome, "Recursively deletes your entire home folder - all your personal files, configs, and data"),
   (patMkfs, "Formats a filesystem - would erase all data on the target disk/partition"),
   (patDd, "Overwrites an entire disk with zeros/random data - complete data destruction"),
   (patRedirDisk, "Redirects output to overwrite a raw disk device - destroys all data"),
   (patShred, "Securely wipes system-critical locations - unrecoverable destruction"),
   (patForkBomb, "Fork bomb - spawns infinite processes until the system crashes from resource exhaustion"),
   (patChmod777, "Makes the entire filesystem world-readable/writable - catastrophic security vulnerability"),
   (patChmod000, "Removes all permissions from the entire filesystem - system becomes unusable"),
   (patChmodRecRoot, "Recursively changes permissions on root filesystem - can break the entire system"),
   (patChownRecRoot, "Recursively changes ownership of root filesystem - can break the entire system"),
   (patShutdown, "Shuts down the computer"),
   (patReboot, "Reboots the computer"),
   (patPoweroff, "Powers off the computer"),
   (patHalt, "Halts the system"),
   (patInit06, "Changes system runlevel to shutdown (0) or reboot (6)"),
   (patKillAll, "Sends SIGKILL to ALL processes - crashes the entire system immediately"),
   (patRedirPasswd, "Overwrites the user database - locks everyone out of the system"),
   (patRedirShadow, "Overwrites the password database - breaks all authentication"),
   (patRmAuth, "Deletes critical authentication files - breaks system security"),
   (patIptablesF, "Flushes all firewall rules - removes network security protections"),
   (patUfwDisable, "Disables the firewall entirely - exposes system to network attacks")]

/-- The result of `check_dangerous_command`. -/
structure DangerCheck where
  is_dangerous : Bool
  explanation : String
deriving DecidableEq

/-- The function `check_dangerous_command`: first matching pattern wins; no match means
not dangerous with an empty explanation. -/
def check_dangerous_command (command : String) : DangerCheck :=
  match DANGEROUS_PATTERNS.find? (fun pe => reSearchIC pe.1 command) with
  | some pe => ⟨true, pe.2⟩
  | none => ⟨false, ""⟩

/-! ### Data model: Python values, exceptions, effects, world, environment

Tool arguments arrive as a JSON-like mapping whose values need not be
strings; results are dictionaries (serialised with `json.dumps` in the
source — the serialisation is presentation and is not modelled, the
dictionary itself is).  A `World` is the file system, keyed by resolved
paths.  `Env` collects every process-external dependency as an oracle. -/

/-- A JSON-like Python value, as found in tool argument mappings and tool
result dictionaries. -/
inductive Val
  | str (s : String)
  | int (n : Int)
  | bool (b : Bool)
  | list (xs : List Val)
  | dict (xs : List (String × Val))
  | vnone

/-- A tool argument mapping (`arguments` in the source). -/
abbrev Args := List (String × Val)

/-- A tool result dictionary (the value `json.dumps` would serialise). -/
abbrev PyDict := List (String × Val)

/-- The Python exceptions the embedding distinguishes. -/
inductive PyExc
  | typeErr (msg : String)
  | attrErr (msg : String)

/-- Python `str(e)` for an embedded exception. -/
def excText : PyExc → String
  | .typeErr m => m
  | .attrErr m => m

/-- Observable side effects of a dispatch, in order of occurrence. -/
inductive Effect
  | prompted (action details : String)
  | shellInvoke (command : String) (timeoutSec : Int)
  | fsWrote (path : String) (content : List Char)
  | gateDefaultBranch

/-- The file system: resolved path to file content. -/
abbrev World := String → Option (List Char)

/-- Outcome of `subprocess.run(command, shell=True, timeout=t)`. -/
inductive SubprocResult
  | timeoutExp
  | fin (returncode : Int) (stdout stderr : String)

/-- One model response (`response.message` of the transport). -/
structure ChatResp where
  content : Option String
  thinking : Option String
  tool_calls : List (String × List (String × Val))

/-- One entry of the conversation history. -/
inductive Msg
  | userM (content : String)
  | assistantM (resp : ChatResp)
  | toolM (tool_name : String) (content : List (String × Val))

/-- The process-external world: path resolution and display, the interactive
prompt (`None` models `KeyboardInterrupt`/`EOFError`), the subprocess runner,
the directory oracle for `list_files` (`dirItems` is assumed sorted, as
`sorted(iterdir())` produces), the two Ollama web tools, and the model
transport (`chat`; the constant system message the source prepends is folded
into the oracle). -/
structure Env where
  resolve : String → String
  toRel : String → String
  answer : String → String → Option String
  run : String → Int → SubprocResult
  isDir : String → Bool
  dirItems : String → List (String × Bool)
  webSearchImpl : Args → Except PyExc (List (String × String × String))
  webFetchImpl : Args → Except PyExc (String × String × List String)
  chat : List Msg → Except String ChatResp

/-- Python `dict.get(k)` on an argument mapping (first binding wins). -/
def getArg (args : Args) (k : String) : Option Val :=
  (args.find? (fun kv => kv.1 = k)).map (·.2)

/-- Python `dict[k] = v` on an argument mapping. -/
def setArg (args : Args) (k : String) (v : Val) : Args :=
  if (args.find? (fun kv => kv.1 = k)).isSome then
    args.map (fun kv => if kv.1 = k then (k, v) else kv)
  else args ++ [(k, v)]

/-- Lookup in a result dictionary. -/
def dictGet (d : PyDict) (k : String) : Option Val :=
  (d.find? (fun kv => kv.1 = k)).map (·.2)

/-- Python truthiness of a value. -/
def pyTruthy : Val → Bool
  | .str s => !(s = "")
  | .int n => !(n = 0)
  | .bool b => b
  | .list xs => !xs.isEmpty
  | .dict xs => !xs.isEmpty
  | .vnone => false

/-- Python `v.count(chr(10))`: works on strings and lists, raises
`AttributeError` on ints, bools and `None`. -/
def valCountNl : Val → Except PyExc Nat
  | .str s => .ok (pyCountL ['\n'] s.data)
  | .list xs => .ok (xs.countP fun v => match v with | .str s => s = "\n" | _ => false)
  | .dict _ => .error (.attrErr "dict object has no attribute count")
  | _ => .error (.attrErr "object has no attribute count")

/-- Python `len(v)`: works on strings, lists and dicts, raises `TypeError`
on ints, bools and `None`. -/
def valLen : Val → Except PyExc Nat
  | .str s => .ok s.length
  | .list xs => .ok xs.length
  | .dict xs => .ok xs.length
  | _ => .error (.typeErr "object of this type has no len")

/-- Python `int` coercion as used by `max`/`min` arithmetic: ints pass
through, bools are 0/1, everything else raises `TypeError`. -/
def intOfVal : Val → Except PyExc Int
  | .int n => .ok n
  | .bool b => .ok (if b then 1 else 0)
  | _ => .error (.typeErr "unsupported operand type for int comparison")

/-- The single-quote character, used by the (simplified) `repr` printer. -/
def squote : Char := Char.ofNat 39

/-- A simplified Python `repr` used only to build prompt-preview text
(display only; string escaping and the printing of nested containers are
not modelled — no claim depends on these texts). -/
def pyRepr : Val → String
  | .str s => String.mk (squote :: s.data) ++ String.mk [squote]
  | .int n => toString n
  | .bool b => if b then "True" else "False"
  | .vnone => "None"
  | .list _ => "<list>"
  | .dict _ => "<dict>"

/-- Python `str(v)` as used in f-strings for prompt details (display only). -/
def strOfVal : Val → String
  | .str s => s
  | v => pyRepr v

/-! ### Tool executors

Each executor mirrors one Python tool function.  A regular executor returns
the result dictionary, the updated file system and its effect trace; the tool
functions whose bodies can raise past their own `try` (only `run_bash`, whose
dangerous-command check and timeout clamping run before its `try`) return
`Except`. -/

/-- The permission modes. -/
inductive PermissionMode
  | default
  | acceptEdits
  | yolo
deriving DecidableEq

/-- The tool `read_file`: resolve, read; a missing file is the distinct
file-not-found error.  (Other I/O errors are caught to the same failure
shape in the source; the modelled file system has no such errors.) -/
def read_file (env : Env) (w : World) (filename : String) :
    PyDict × World × List Effect :=
  let full := env.resolve filename
  match w full with
  | some content =>
    ([("success", .bool true), ("file_path", .str full),
      ("content", .str (String.mk content))], w, [])
  | none =>
    ([("success", .bool false), ("error", .str ("File not found: " ++ filename))], w, [])

/-- The tool `list_files`: resolve, require a directory, return sorted entries. -/
def list_files (env : Env) (w : World) (path : String) :
    PyDict × World × List Effect :=
  let full := env.resolve path
  if env.isDir full then
    ([("success", .bool true), ("path", .str full),
      ("items", .list ((env.dirItems full).map fun it =>
        Val.dict [("name", .str it.1),
          ("type", .str (if it.2 then "directory" else "file"))]))], w, [])
  else
    ([("success", .bool false), ("error", .str ("Not a directory: " ++ path))], w, [])

/-- The tool `write_file`: resolve, create/overwrite (parent-directory creation has no
observable counterpart in the modelled file system). -/
def write_file (env : Env) (w : World) (path content : String) :
    PyDict × World × List Effect :=
  let full := env.resolve path
  ([("success", .bool true), ("path", .str full), ("action", .str "created")],
   fun x => if x = full then some content.data else w x,
   [.fsWrote full content.data])

/-- The tool `edit_file`: the file must exist; the occurrence count of `old_text`
decides — 0 is not-found, more than 1 demands more context, exactly 1
replaces the first occurrence. -/
def edit_file (env : Env) (w : World) (path old_text new_text : String) :
    PyDict × World × List Effect :=
  let full := env.resolve path
  match w full with
  | none =>
    ([("success", .bool false), ("error", .str ("File not found: " ++ path))], w, [])
  | some content =>
    let count := pyCountL old_text.data content
    if count = 0 then
      ([("success", .bool false), ("error", .str "old_text not found in file"),
        ("path", .str full)], w, [])
    else if count > 1 then
      ([("success", .bool false),
        ("error", .str ("old_text appears " ++ toString count ++
          " times in file - include more surrounding context to make it unique")),
        ("path", .str full)], w, [])
    else
      let newContent := pyReplaceFirstL old_text.data new_text.data content
      ([("success", .bool true), ("path", .str full), ("action", .str "edited")],
       fun x => if x = full then some newContent else w x,
       [.fsWrote full newContent])

/-- The timeout clamp of `run_bash`: `max(1, min(600, timeout))`. -/
def clampTimeout (t : Int) : Int := max 1 (min 600 t)

/-- The inner `truncate_output` of `run_bash`. -/
def truncate_output (output_lines : String) (text : String) (max_lines : Nat) :
    String :=
  let lines := pySplitNl text
  if lines.length ≤ max_lines ∨ output_lines = "all" then text
  else
    let omitted := lines.length - max_lines
    if output_lines = "first" then
      joinNl (lines.take max_lines) ++ ("\n... (" ++ toString omitted ++ " more lines)")
    else if output_lines = "last" then
      ("... (" ++ toString omitted ++ " lines omitted)\n") ++ joinNl (lastN max_lines lines)
    else
      joinNl (lines.take (max_lines / 2)) ++
        ("\n... (" ++ toString omitted ++ " lines omitted) ...\n") ++
        joinNl (lastN (max_lines / 2) lines)

/-- The blocked-result dictionary of `run_bash`. -/
def blockedResult (command : String) (explanation : String) : PyDict :=
  [("success", .bool false), ("blocked", .bool true),
   ("error", .str "BLOCKED: This command is dangerous and cannot be executed."),
   ("command", .str command), ("reason", .str explanation)]

/-- The tool `run_bash`: the dangerous-command check runs first and unconditionally;
then the timeout is clamped (a non-integer timeout raises `TypeError` here,
before the function's own `try`) and the output mode is normalised; then the
shell runs and the two streams are truncated (stdout against 50 lines,
stderr against 20). -/
def run_bash (env : Env) (w : World) (command : String) (timeoutV outputLinesV : Val) :
    Except PyExc (PyDict × World × List Effect) :=
  let danger := check_dangerous_command command
  if danger.is_dangerous then
    .ok (blockedResult command danger.explanation, w, [])
  else
    match intOfVal timeoutV with
    | .error e => .error e
    | .ok t0 =>
      let t := clampTimeout t0
      let ol :=
        match outputLinesV with
        | .str s => if s = "first" ∨ s = "last" ∨ s = "both" ∨ s = "all" then s else "both"
        | _ => "both"
      match env.run command t with
      | .timeoutExp =>
        .ok ([("success", .bool false),
          ("error", .str ("Command timed out (" ++ toString t ++ "s limit)"))],
          w, [.shellInvoke command t])
      | .fin rc out err =>
        .ok ([("success", .bool (decide (rc = 0))), ("exit_code", .int rc),
          ("stdout", .str (truncate_output ol out 50)),
          ("stderr", .str (truncate_output ol err 20))],
          w, [.shellInvoke command t])

/-! ### Permission gate (`prompt_user`, `check_permission`) -/

/-- The prompt `prompt_user`: read one line; an interrupt or end-of-input is a "no";
otherwise the stripped, lowercased answer must be exactly y or yes. -/
def prompt_user (env : Env) (action details : String) : Bool × List Effect :=
  match env.answer action details with
  | none => (false, [.prompted action details])
  | some response =>
    let r := pyLower (pyStrip response)
    (r = "y" ∨ r = "yes", [.prompted action details])

/-- The registry keys of `TOOLS`, in source order. -/
def TOOL_NAMES : List String :=
  ["read_file", "list_files", "write_file", "edit_file", "run_bash",
   "web_search", "web_fetch"]

/-- Python `to_relative_path(args.get("path", "?"))` as used by the gate: a
non-string path value makes `Path(...)` raise `TypeError` (uncaught — the
source's `to_relative_path` catches only `ValueError`). -/
def relPathOfArg (env : Env) (args : Args) : Except PyExc String :=
  match (getArg args "path").getD (.str "?") with
  | .str s => .ok (env.toRel s)
  | _ => .error (.typeErr "argument should be a str or an os.PathLike object")

/-- Python `content.count(chr(10)) + 1 if content else 0` of the write-file gate
branch: a truthy non-string content without a `count` attribute raises. -/
def contentLineCount (content : Val) : Except PyExc Nat :=
  if pyTruthy content then
    match valCountNl content with
    | .ok n => .ok (n + 1)
    | .error e => .error e
  else .ok 0

/-- The prompt details of the write-file gate branch. -/
def writeDetails (env : Env) (args : Args) : Except PyExc String :=
  match relPathOfArg env args with
  | .error e => .error e
  | .ok path =>
    match contentLineCount ((getArg args "content").getD (.str "")) with
    | .error e => .error e
    | .ok lines => .ok (path ++ " (" ++ toString lines ++ " lines)")

/-- The truncated preview of an edit text: `t[:50] + "..." if len(t) > 50
else t`, then `repr`.  Concatenating a list slice with a string raises. -/
def previewOfVal (v : Val) : Except PyExc String :=
  match valLen v with
  | .error e => .error e
  | .ok n =>
    if n > 50 then
      match v with
      | .str s => .ok (pyRepr (.str (strTake 50 s ++ "...")))
      | _ => .error (.typeErr "can only concatenate list (not str) to list")
    else .ok (pyRepr v)

/-- The prompt details of the edit-file gate branch. -/
def editDetails (env : Env) (args : Args) : Except PyExc String :=
  match relPathOfArg env args with
  | .error e => .error e
  | .ok path =>
    match previewOfVal ((getArg args "old_text").getD (.str "")) with
    | .error e => .error e
    | .ok oldPrev =>
      match previewOfVal ((getArg args "new_text").getD (.str "")) with
      | .error e => .error e
      | .ok newPrev => .ok (path ++ "\n  - " ++ oldPrev ++ "\n  + " ++ newPrev)

/-- The gate `check_permission`: read-only tools always pass; `yolo` passes
everything; writes and edits pass under `accept-edits` and otherwise prompt;
shell always prompts below `yolo`; any other name falls through to the
fail-open final return (recorded as `Effect.gateDefaultBranch`).  The
returned pair is `(is_permitted, error_message)`; building the prompt
details can raise, and such an exception propagates (in the source the
dispatcher's `try` starts only after this call). -/
def check_permission (env : Env) (mode : PermissionMode) (tool_name : String)
    (args : Args) : Except PyExc (Bool × Option String) × List Effect :=
  if tool_name = "read_file" ∨ tool_name = "list_files" ∨
      tool_name = "web_search" ∨ tool_name = "web_fetch" then
    (.ok (true, none), [])
  else if mode = PermissionMode.yolo then (.ok (true, none), [])
  else if tool_name = "write_file" then
    if mode = PermissionMode.acceptEdits then (.ok (true, none), [])
    else
      match writeDetails env args with
      | .error e => (.error e, [])
      | .ok details =>
        let pr := prompt_user env "Write file" details
        if pr.1 then (.ok (true, none), pr.2)
        else (.ok (false, some "User declined to write file"), pr.2)
  else if tool_name = "edit_file" then
    if mode = PermissionMode.acceptEdits then (.ok (true, none), [])
    else
      match editDetails env args with
      | .error e => (.error e, [])
      | .ok details =>
        let pr := prompt_user env "Edit file" details
        if pr.1 then (.ok (true, none), pr.2)
        else (.ok (false, some "User declined to edit file"), pr.2)
  else if tool_name = "run_bash" then
    let command := (getArg args "command").getD (.str "?")
    let pr := prompt_user env "Run command" (strOfVal command)
    if pr.1 then (.ok (true, none), pr.2)
    else (.ok (false, some "User declined to run command"), pr.2)
  else (.ok (true, none), [Effect.gateDefaultBranch])

/-! ### Tool dispatcher (`execute_tool`)

`TOOLS[name](**arguments)` performs keyword binding: an unexpected keyword or
a missing required argument raises `TypeError` at the call site, inside the
dispatcher's `try`.  Wrongly typed values raise inside the tool bodies; for
`read_file`, `list_files`, `write_file` and `edit_file` the body's own
`try` converts them to failure dictionaries (the exact `str(e)` texts are
approximated — no claim depends on them), while for `run_bash` the raise
happens before the body's `try` and so escapes to the dispatcher's. -/

/-- A failure dictionary `{"success": False, "error": msg}`. -/
def failureResult (msg : String) : PyDict :=
  [("success", .bool false), ("error", .str msg)]

/-- Python `TOOLS[name](**arguments)` for the five regular tools. -/
def callExecutor (env : Env) (w : World) (name : String) (args : Args) :
    Except PyExc (PyDict × World × List Effect) :=
  if name = "read_file" then
    if ∀ kv ∈ args, kv.1 ∈ (["filename"] : List String) then
      match getArg args "filename" with
      | none => .error (.typeErr "read_file missing a required argument: filename")
      | some (.str fn) => .ok (read_file env w fn)
      | some _ =>
        .ok (failureResult "argument should be a str or an os.PathLike object", w, [])
    else .error (.typeErr "read_file got an unexpected keyword argument")
  else if name = "list_files" then
    if ∀ kv ∈ args, kv.1 ∈ (["path"] : List String) then
      match (getArg args "path").getD (.str ".") with
      | .str p => .ok (list_files env w p)
      | _ =>
        .ok (failureResult "argument should be a str or an os.PathLike object", w, [])
    else .error (.typeErr "list_files got an unexpected keyword argument")
  else if name = "write_file" then
    if ∀ kv ∈ args, kv.1 ∈ (["path", "content"] : List String) then
      match getArg args "path", getArg args "content" with
      | some pv, some cv =>
        match pv with
        | .str p =>
          match cv with
          | .str c => .ok (write_file env w p c)
          | _ => .ok (failureResult "data must be str", w, [])
        | _ =>
          .ok (failureResult "argument should be a str or an os.PathLike object", w, [])
      | _, _ => .error (.typeErr "write_file missing a required argument")
    else .error (.typeErr "write_file got an unexpected keyword argument")
  else if name = "edit_file" then
    if ∀ kv ∈ args, kv.1 ∈ (["path", "old_text", "new_text"] : List String) then
      match getArg args "path", getArg args "old_text", getArg args "new_text" with
      | some pv, some ov, some nv =>
        match pv with
        | .str p =>
          match w (env.resolve p) with
          | none =>
            .ok ([("success", .bool false),
              ("error", .str ("File not found: " ++ p))], w, [])
          | some content =>
            match ov with
            | .str o =>
              match nv with
              | .str n => .ok (edit_file env w p o n)
              | _ =>
                if pyCountL o.data content = 0 then
                  .ok ([("success", .bool false),
                    ("error", .str "old_text not found in file"),
                    ("path", .str (env.resolve p))], w, [])
                else if pyCountL o.data content > 1 then
                  .ok ([("success", .bool false),
                    ("error", .str ("old_text appears " ++ toString (pyCountL o.data content) ++
                      " times in file - include more surrounding context to make it unique")),
                    ("path", .str (env.resolve p))], w, [])
                else .ok (failureResult "replace argument 2 must be str", w, [])
            | _ => .ok (failureResult "must be str, not int", w, [])
        | _ =>
          .ok (failureResult "argument should be a str or an os.PathLike object", w, [])
      | _, _, _ => .error (.typeErr "edit_file missing a required argument")
    else .error (.typeErr "edit_file got an unexpected keyword argument")
  else if name = "run_bash" then
    if ∀ kv ∈ args, kv.1 ∈ (["command", "timeout", "output_lines"] : List String) then
      match getArg args "command" with
      | none => .error (.typeErr "run_bash missing a required argument: command")
      | some cv =>
        let tv := (getArg args "timeout").getD (.int 30)
        let olv := (getArg args "output_lines").getD (.str "both")
        match cv with
        | .str cmd => run_bash env w cmd tv olv
        | _ => .error (.typeErr "expected string or bytes-like object")
    else .error (.typeErr "run_bash got an unexpected keyword argument")
  else .error (.typeErr ("Unknown tool: " ++ name))

/-- The body of the dispatcher's `web_search` branch: clamp `max_results`
into [1, 10] when present, call the service, shape the result. -/
def webSearchBody (env : Env) (args : Args) : Except PyExc PyDict :=
  let step : Except PyExc Args :=
    match getArg args "max_results" with
    | none => .ok args
    | some v =>
      match intOfVal v with
      | .error e => .error e
      | .ok n => .ok (setArg args "max_results" (.int (max 1 (min 10 n))))
  match step with
  | .error e => .error e
  | .ok args' =>
    match env.webSearchImpl args' with
    | .error e => .error e
    | .ok results =>
      .ok [("success", .bool true),
        ("results", .list (results.map fun r =>
          Val.dict [("title", .str r.1), ("url", .str r.2.1),
            ("content", .str r.2.2)]))]

/-- The body of the dispatcher's `web_fetch` branch: call the service,
truncate the content to 8000 characters, keep at most 20 links. -/
def webFetchBody (env : Env) (args : Args) : Except PyExc PyDict :=
  match env.webFetchImpl args with
  | .error e => .error e
  | .ok tcl =>
    .ok [("success", .bool true), ("title", .str tcl.1),
      ("content", .str (strTake 8000 tcl.2.1)),
      ("links", .list ((if tcl.2.2.isEmpty then [] else tcl.2.2.take 20).map Val.str))]

/-- The unknown-tool failure result. -/
def unknownToolResult (name : String) : PyDict :=
  [("success", .bool false), ("error", .str ("Unknown tool: " ++ name))]

/-- The dispatcher `execute_tool`: unknown names fail immediately; then the permission gate
runs (outside the `try` — an exception it raises escapes); a denial becomes a
failure result carrying the gate's reason; then the `try` block calls the
tool and converts any raise into a failure result. -/
def execute_tool (env : Env) (mode : PermissionMode) (w : World) (name : String)
    (args : Args) : Except PyExc PyDict × World × List Effect :=
  if name ∈ TOOL_NAMES then
    match check_permission env mode name args with
    | (.error e, tr) => (.error e, w, tr)
    | (.ok pe, tr) =>
      if pe.1 then
        if name = "web_search" then
          match webSearchBody env args with
          | .ok d => (.ok d, w, tr)
          | .error e => (.ok (failureResult (excText e)), w, tr)
        else if name = "web_fetch" then
          match webFetchBody env args with
          | .ok d => (.ok d, w, tr)
          | .error e => (.ok (failureResult (excText e)), w, tr)
        else
          match callExecutor env w name args with
          | .ok dwt => (.ok dwt.1, dwt.2.1, tr ++ dwt.2.2)
          | .error e => (.ok (failureResult (excText e)), w, tr)
      else
        (.ok [("success", .bool false),
          ("error", match pe.2 with | some s => .str s | none => .vnone)], w, tr)
  else (.ok (unknownToolResult name), w, [])

/-! ### Conversation orchestrator (the inner loop of `run_agent`)

One user turn: append the user message, then loop — call the model; a
transport failure pops the last history entry and returns to user input; a
response with no tool calls finishes the turn; otherwise each requested call
is dispatched in order, one tool message appended per call, and the model is
called again.  An exception escaping `execute_tool` would crash the session
(`crashed`).  The source's loop is unbounded; fuel makes the model total. -/

/-- Outcome of one user turn. -/
inductive TurnOutcome
  | finished (msgs : List Msg) (w : World)
  | transportFailed (msgs : List Msg) (w : World)
  | crashed (e : PyExc) (msgs : List Msg) (w : World)
  | outOfFuel (msgs : List Msg) (w : World)

/-- Dispatch the requested tool calls in order, appending one tool message
per call; an escaping exception aborts with the history appended so far. -/
def processCalls (env : Env) (mode : PermissionMode) :
    World → List Msg → List (String × Args) →
    Except (PyExc × List Msg × World) (List Msg × World)
  | w, msgs, [] => .ok (msgs, w)
  | w, msgs, (nm, ar) :: rest =>
    match execute_tool env mode w nm ar with
    | (.error e, w', _) => .error (e, msgs, w')
    | (.ok d, w', _) => processCalls env mode w' (msgs ++ [.toolM nm d]) rest

/-- The model-call loop of one user turn.  On a transport failure the source
runs `messages.pop()` — dropping the *last* history entry — and breaks. -/
def agentTurn (env : Env) (mode : PermissionMode) :
    Nat → World → List Msg → TurnOutcome
  | 0, w, msgs => .outOfFuel msgs w
  | fuel + 1, w, msgs =>
    match env.chat msgs with
    | .error _ => .transportFailed msgs.dropLast w
    | .ok resp =>
      let msgs1 := msgs ++ [.assistantM resp]
      match resp.tool_calls with
      | [] => .finished msgs1 w
      | c :: rest =>
        match processCalls env mode w msgs1 (c :: rest) with
        | .error ew => .crashed ew.1 ew.2.1 ew.2.2
        | .ok mw => agentTurn env mode fuel mw.2 mw.1

/-- One full user turn: append the user message, then run the loop. -/
def userTurn (env : Env) (mode : PermissionMode) (fuel : Nat) (w : World)
    (msgs : List Msg) (input : String) : TurnOutcome :=
  agentTurn env mode fuel w (msgs ++ [.userM input])

/-! ### Properties of replace-first -/

/-- A list starts with its own prefix. -/
theorem startsWithL_self_append (p t : List Char) : startsWithL p (p ++ t) = true :=
  (startsWithL_iff p (p ++ t)).2 ⟨t, rfl⟩

/-- Replace-first at the first occurrence: if no occurrence of `old` in
`a ++ old ++ b` starts before position `length a`, replacing the first
occurrence rewrites exactly the shown one. -/
theorem pyReplaceFirstL_first_occ (old new a b : List Char)
    (hmin : ∀ a' b', a ++ old ++ b = a' ++ old ++ b' → a.length ≤ a'.length) :
    pyReplaceFirstL old new (a ++ old ++ b) = a ++ new ++ b := by
  cases old with
  | nil =>
    have ha : a = [] := by
      have h := hmin [] (a ++ b) (by simp)
      exact List.eq_nil_of_length_eq_zero (Nat.le_zero.mp h)
    subst ha
    simp [pyReplaceFirstL]
  | cons c0 sub =>
    induction a with
    | nil =>
      show pyReplaceFirstNE c0 sub new (c0 :: (sub ++ b)) = new ++ b
      have hsw : startsWithL (c0 :: sub) (c0 :: (sub ++ b)) = true :=
        startsWithL_self_append (c0 :: sub) b
      simp [pyReplaceFirstNE, hsw, List.drop_left]
    | cons x a' ih =>
      have hns : ¬ startsWithL (c0 :: sub) (x :: (a' ++ (c0 :: sub) ++ b)) = true := by
        intro hsw
        obtain ⟨t, ht⟩ := (startsWithL_iff _ _).1 hsw
        have h := hmin [] t (by simpa using ht)
        simp at h
      have hmin' : ∀ a'' b'', a' ++ (c0 :: sub) ++ b = a'' ++ (c0 :: sub) ++ b'' →
          a'.length ≤ a''.length := by
        intro a'' b'' h
        have := hmin (x :: a'') b'' (by simpa using h)
        simpa using this
      show pyReplaceFirstNE c0 sub new (x :: (a' ++ (c0 :: sub) ++ b)) =
        x :: (a' ++ new ++ b)
      simp only [pyReplaceFirstNE, if_neg hns]
      exact congrArg (x :: ·) (ih hmin')

/-! ### C4 — the edit round trip -/

/-- C4: when `old_text` occurs exactly once (by the source's non-overlapping
count), `edit_file` succeeds, writes the content with the first occurrence
replaced, and reading the file back returns the original with that single
occurrence replaced by `new_text`; when the count is 0 or at least 2,
`edit_file` fails and the file system is byte-for-byte unchanged. -/
theorem edit_file_round_trip (env : Env) (w : World) (path old_text new_text : String)
    (content : List Char) (hfile : w (env.resolve path) = some content) :
    (pyCountL old_text.data content = 1 →
      edit_file env w path old_text new_text =
        ([("success", .bool true), ("path", .str (env.resolve path)),
          ("action", .str "edited")],
         fun x => if x = env.resolve path then
           some (pyReplaceFirstL old_text.data new_text.data content) else w x,
         [.fsWrote (env.resolve path)
           (pyReplaceFirstL old_text.data new_text.data content)]) ∧
      ∀ a b, content = a ++ old_text.data ++ b →
        (∀ a' b', content = a' ++ old_text.data ++ b' → a.length ≤ a'.length) →
        (read_file env (edit_file env w path old_text new_text).2.1 path).1 =
          [("success", .bool true), ("file_path", .str (env.resolve path)),
           ("content", .str (String.mk (a ++ new_text.data ++ b)))]) ∧
    (pyCountL old_text.data content ≠ 1 →
      (∃ msg, (edit_file env w path old_text new_text).1 =
        [("success", .bool false), ("error", .str msg),
         ("path", .str (env.resolve path))]) ∧
      (edit_file env w path old_text new_text).2.1 = w) := by
  constructor
  · intro hcount
    have hedit : edit_file env w path old_text new_text =
        ([("success", .bool true), ("path", .str (env.resolve path)),
          ("action", .str "edited")],
         fun x => if x = env.resolve path then
           some (pyReplaceFirstL old_text.data new_text.data content) else w x,
         [.fsWrote (env.resolve path)
           (pyReplaceFirstL old_text.data new_text.data content)]) := by
      simp [edit_file, hfile, hcount]
    refine ⟨hedit, ?_⟩
    intro a b hab hmin
    rw [hedit]
    simp only [read_file]
    simp only [if_pos]
    rw [hab, pyReplaceFirstL_first_occ old_text.data new_text.data a b
      (fun a' b' h => hmin a' b' (hab.trans h))]
  · intro hcount
    have hz : pyCountL old_text.data content = 0 ∨ pyCountL old_text.data content > 1 := by
      omega
    cases hz with
    | inl h0 =>
      constructor
      · exact ⟨"old_text not found in file", by simp [edit_file, hfile, h0]⟩
      · simp [edit_file, hfile, h0]
    | inr h1 =>
      constructor
      · refine ⟨"old_text appears " ++ toString (pyCountL old_text.data content) ++
          " times in file - include more surrounding context to make it unique", ?_⟩
        have hne0 : pyCountL old_text.data content ≠ 0 := by omega
        simp [edit_file, hfile, hne0, h1]
      · have hne0 : pyCountL old_text.data content ≠ 0 := by omega
        simp [edit_file, hfile, hne0, h1]

/-! ### C10 — empty `old_text` -/

/-- C10: with an empty `old_text` the count is `length + 1`, so the edit
fails and leaves the file unchanged whenever the content is non-empty, while
on an empty file it succeeds and replaces the content with `new_text`. -/
theorem edit_file_empty_old (env : Env) (w : World) (path new_text : String)
    (content : List Char) (hfile : w (env.resolve path) = some content) :
    pyCountL ("" : String).data content = content.length + 1 ∧
    (content ≠ [] →
      (edit_file env w path "" new_text).1 =
        [("success", .bool false),
         ("error", .str ("old_text appears " ++ toString (content.length + 1) ++
           " times in file - include more surrounding context to make it unique")),
         ("path", .str (env.resolve path))] ∧
      (edit_file env w path "" new_text).2.1 = w) ∧
    (content = [] →
      edit_file env w path "" new_text =
        ([("success", .bool true), ("path", .str (env.resolve path)),
          ("action", .str "edited")],
         fun x => if x = env.resolve path then some new_text.data else w x,
         [.fsWrote (env.resolve path) new_text.data])) := by
  refine ⟨rfl, ?_, ?_⟩
  · intro hne
    have hlen : content.length + 1 > 1 := by
      have := List.length_pos.mpr hne
      omega
    constructor
    · simp [edit_file, hfile, pyCountL, hlen]
    · simp [edit_file, hfile, pyCountL, hlen]
  · intro hempty
    subst hempty
    simp [edit_file, hfile, pyCountL, pyReplaceFirstL]

/-! ### Concrete environments and worlds used by witnesses -/

/-- The empty file system. -/
def emptyW : World := fun _ => none

/-- A concrete environment whose user always answers "n" to prompts. -/
def envNo : Env where
  resolve := id
  toRel := id
  answer := fun _ _ => some "n"
  run := fun _ _ => .fin 0 "" ""
  isDir := fun _ => false
  dirItems := fun _ => []
  webSearchImpl := fun _ => .ok []
  webFetchImpl := fun _ => .ok ("", "", [])
  chat := fun _ => .error "unavailable"

/-- A concrete environment whose user always answers "y" to prompts. -/
def envYes : Env := { envNo with answer := fun _ _ => some "y" }

/-! ### Helper lemmas -/

/-- Prompting always records exactly its prompt effect. -/
theorem prompt_user_trace (env : Env) (a d : String) :
    (prompt_user env a d).2 = [Effect.prompted a d] := by
  unfold prompt_user
  cases env.answer a d <;> rfl

/-- A value fetched from an all-string argument mapping is a string. -/
theorem str_of_getArg {args : Args} {k : String} {v : Val}
    (hstr : ∀ kv ∈ args, ∃ s, kv.2 = Val.str s) (h : getArg args k = some v) :
    ∃ s, v = Val.str s := by
  unfold getArg at h
  cases hf : args.find? (fun kv => kv.1 = k) with
  | none => rw [hf] at h; simp at h
  | some kv =>
    rw [hf] at h
    have h2 : kv.2 = v := by simpa using h
    obtain ⟨s, hs⟩ := hstr kv (List.mem_of_find?_eq_some hf)
    exact ⟨s, h2 ▸ hs⟩

/-! ### C8 — timeout clamping -/

/-- C8: for every integer timeout argument, `run_bash` clamps the effective
timeout into [1, 600] seconds — the clamped value is what reaches the shell —
and in particular 5000 clamps to 600 and -1 clamps to 1. -/
theorem run_bash_timeout_clamped :
    (∀ t : Int, 1 ≤ clampTimeout t ∧ clampTimeout t ≤ 600) ∧
    clampTimeout 5000 = 600 ∧ clampTimeout (-1) = 1 ∧
    ∀ (env : Env) (w : World) (cmd : String) (t : Int) (olv : Val),
      (check_dangerous_command cmd).is_dangerous = false →
      ∃ d, run_bash env w cmd (.int t) olv =
        .ok (d, w, [Effect.shellInvoke cmd (clampTimeout t)]) := by
  refine ⟨fun t => ⟨le_max_left 1 _, max_le (by norm_num) (min_le_left 600 t)⟩,
    by decide, by decide, fun env w cmd t olv hdanger => ?_⟩
  unfold run_bash
  simp only [hdanger, Bool.false_eq_true, if_false, intOfVal]
  cases env.run cmd (clampTimeout t) <;> exact ⟨_, rfl⟩

/-- Witness for C8 at a concrete non-dangerous command and timeout 5000. -/
theorem run_bash_timeout_clamped_witness :
    (check_dangerous_command "pwd").is_dangerous = false ∧
    ∃ d, run_bash envNo emptyW "pwd" (.int 5000) (.str "all") =
      .ok (d, emptyW, [Effect.shellInvoke "pwd" (clampTimeout 5000)]) :=
  ⟨rfl, run_bash_timeout_clamped.2.2.2 envNo emptyW "pwd" 5000 (.str "all") rfl⟩

/-! ### C6 — declined write under default mode -/

/-- C6: under default mode, when the user declines the write prompt (answers
something other than y/yes, or interrupts — an interrupt always counts as
"no"), the dispatcher returns success=false with reason "User declined to
write file", the executor is never invoked and the file system is unchanged. -/
theorem write_file_decline (env : Env) (w : World) (path content details : String)
    (hdetails : writeDetails env [("path", .str path), ("content", .str content)] =
      .ok details)
    (hdecline : (prompt_user env "Write file" details).1 = false) :
    (∀ a d, env.answer a d = none → (prompt_user env a d).1 = false) ∧
    execute_tool env .default w "write_file"
        [("path", .str path), ("content", .str content)] =
      (.ok [("success", .bool false), ("error", .str "User declined to write file")],
       w, [Effect.prompted "Write file" details]) := by
  constructor
  · intro a d h
    unfold prompt_user
    rw [h]
  · have hcp : check_permission env .default "write_file"
        [("path", .str path), ("content", .str content)] =
        (.ok (false, some "User declined to write file"),
          [Effect.prompted "Write file" details]) := by
      have htr := prompt_user_trace env "Write file" details
      cases hpu : prompt_user env "Write file" details with
      | mk b tr =>
        rw [hpu] at hdecline htr
        simp only at hdecline htr
        subst hdecline htr
        simp [check_permission, hdetails, hpu]
    unfold execute_tool
    rw [if_pos (by decide), hcp]
    rfl

/-! ### C7 — output truncation of `run_bash` -/

/-- The "both" truncation of a 1000-line text: first 25 lines, the
"950 lines omitted" marker, last 25 lines. -/
theorem truncate_both_1000 (out : String) (hlen : (pySplitNl out).length = 1000) :
    truncate_output "both" out 50 =
      joinNl ((pySplitNl out).take 25) ++ "\n... (950 lines omitted) ...\n" ++
        joinNl (lastN 25 (pySplitNl out)) := by
  unfold truncate_output
  simp only [hlen]
  norm_num
  rfl

/-- The "all" mode never truncates. -/
theorem truncate_all (txt : String) (n : Nat) : truncate_output "all" txt n = txt := by
  unfold truncate_output
  simp

/-- Evaluation of `run_bash` for a non-dangerous command, a valid output
mode and a finished subprocess. -/
theorem run_bash_fin (env : Env) (w : World) (cmd : String) (t : Int) (ol : String)
    (rc : Int) (out err : String)
    (hdanger : (check_dangerous_command cmd).is_dangerous = false)
    (hol : ol = "first" ∨ ol = "last" ∨ ol = "both" ∨ ol = "all")
    (hrun : env.run cmd (clampTimeout t) = .fin rc out err) :
    run_bash env w cmd (.int t) (.str ol) =
      .ok ([("success", .bool (decide (rc = 0))), ("exit_code", .int rc),
        ("stdout", .str (truncate_output ol out 50)),
        ("stderr", .str (truncate_output ol err 20))],
        w, [Effect.shellInvoke cmd (clampTimeout t)]) := by
  unfold run_bash
  simp only [hdanger, Bool.false_eq_true, if_false, intOfVal]
  rw [hrun, if_pos hol]

/-- C7: for a command whose stdout has exactly 1000 newline-separated lines,
`output_lines="both"` returns the first 25 and last 25 lines around a
"950 lines omitted" marker (stdout truncated against its 50-line limit,
stderr against its 20-line limit), `"all"` returns the full stdout and
stderr verbatim, and any other mode string behaves exactly like "both". -/
theorem run_bash_output_modes (env : Env) (w : World) (cmd : String) (t : Int)
    (rc : Int) (out err : String)
    (hdanger : (check_dangerous_command cmd).is_dangerous = false)
    (hrun : env.run cmd (clampTimeout t) = .fin rc out err)
    (hlen : (pySplitNl out).length = 1000) :
    run_bash env w cmd (.int t) (.str "both") =
      .ok ([("success", .bool (decide (rc = 0))), ("exit_code", .int rc),
        ("stdout", .str (joinNl ((pySplitNl out).take 25) ++
          "\n... (950 lines omitted) ...\n" ++ joinNl (lastN 25 (pySplitNl out)))),
        ("stderr", .str (truncate_output "both" err 20))],
        w, [Effect.shellInvoke cmd (clampTimeout t)]) ∧
    run_bash env w cmd (.int t) (.str "all") =
      .ok ([("success", .bool (decide (rc = 0))), ("exit_code", .int rc),
        ("stdout", .str out), ("stderr", .str err)],
        w, [Effect.shellInvoke cmd (clampTimeout t)]) ∧
    (∀ m : String, m ≠ "first" → m ≠ "last" → m ≠ "both" → m ≠ "all" →
      run_bash env w cmd (.int t) (.str m) = run_bash env w cmd (.int t) (.str "both")) := by
  refine ⟨?_, ?_, ?_⟩
  · rw [run_bash_fin env w cmd t "both" rc out err hdanger (by simp) hrun,
      truncate_both_1000 out hlen]
  · rw [run_bash_fin env w cmd t "all" rc out err hdanger (by simp) hrun,
      truncate_all, truncate_all]
  · intro m h1 h2 h3 h4
    unfold run_bash
    simp only [hdanger, Bool.false_eq_true, if_false, intOfVal]
    rw [if_neg (by rintro (h | h | h | h); exacts [h1 h, h2 h, h3 h, h4 h])]
    rfl

/-- The 1000-line stdout used by the C7 witness: 999 newline characters
split into 1000 empty lines. -/
def bigOut : String := String.mk (List.replicate 999 '\n')

/-- The environment of the C7 witness: every command exits 0 with `bigOut`
on stdout. -/
def envBig : Env := { envNo with run := fun _ _ => .fin 0 bigOut "e1" }

/-- Witness for C7 at a concrete 1000-line stdout. -/
theorem run_bash_output_modes_witness :
    (check_dangerous_command "ls").is_dangerous = false ∧
    envBig.run "ls" (clampTimeout 30) = .fin 0 bigOut "e1" ∧
    (pySplitNl bigOut).length = 1000 ∧
    (run_bash envBig emptyW "ls" (.int 30) (.str "both") =
      .ok ([("success", .bool (decide ((0 : Int) = 0))), ("exit_code", .int 0),
        ("stdout", .str (joinNl ((pySplitNl bigOut).take 25) ++
          "\n... (950 lines omitted) ...\n" ++ joinNl (lastN 25 (pySplitNl bigOut)))),
        ("stderr", .str (truncate_output "both" "e1" 20))],
        emptyW, [Effect.shellInvoke "ls" (clampTimeout 30)]) ∧
    run_bash envBig emptyW "ls" (.int 30) (.str "all") =
      .ok ([("success", .bool (decide ((0 : Int) = 0))), ("exit_code", .int 0),
        ("stdout", .str bigOut), ("stderr", .str "e1")],
        emptyW, [Effect.shellInvoke "ls" (clampTimeout 30)]) ∧
    (∀ m : String, m ≠ "first" → m ≠ "last" → m ≠ "both" → m ≠ "all" →
      run_bash envBig emptyW "ls" (.int 30) (.str m) =
        run_bash envBig emptyW "ls" (.int 30) (.str "both"))) :=
  ⟨rfl, rfl, by decide,
   run_bash_output_modes envBig emptyW "ls" 30 0 bigOut "e1" rfl rfl (by decide)⟩

/-- Witness for C6 with the always-"n" environment. -/
theorem write_file_decline_witness :
    writeDetails envNo [("path", .str "f.txt"), ("content", .str "hello")] =
      .ok "f.txt (1 lines)" ∧
    (prompt_user envNo "Write file" "f.txt (1 lines)").1 = false ∧
    ((∀ a d, envNo.answer a d = none → (prompt_user envNo a d).1 = false) ∧
     execute_tool envNo .default emptyW "write_file"
        [("path", .str "f.txt"), ("content", .str "hello")] =
      (.ok [("success", .bool false), ("error", .str "User declined to write file")],
       emptyW, [Effect.prompted "Write file" "f.txt (1 lines)"])) :=
  ⟨rfl, rfl, write_file_decline envNo emptyW "f.txt" "hello" "f.txt (1 lines)" rfl rfl⟩

/-- The one-file world of the C4 witness. -/
def wAbc : World := fun x => if x = "f.txt" then some "abc".data else none

/-- Witness for C4: a unique occurrence is replaced through `edit_file`. -/
theorem edit_file_round_trip_witness :
    wAbc (envNo.resolve "f.txt") = some ("abc".data) ∧
    pyCountL ("b" : String).data "abc".data = 1 ∧
    edit_file envNo wAbc "f.txt" "b" "XY" =
      ([("success", .bool true), ("path", .str (envNo.resolve "f.txt")),
        ("action", .str "edited")],
       fun x => if x = envNo.resolve "f.txt" then
         some (pyReplaceFirstL ("b" : String).data ("XY" : String).data "abc".data)
       else wAbc x,
       [.fsWrote (envNo.resolve "f.txt")
         (pyReplaceFirstL ("b" : String).data ("XY" : String).data "abc".data)]) :=
  ⟨rfl, rfl,
   ((edit_file_round_trip envNo wAbc "f.txt" "b" "XY" "abc".data rfl).1 rfl).1⟩

/-- The one-file world of the C10 witness. -/
def wXy : World := fun x => if x = "f.txt" then some "x\ny".data else none

/-- Witness for C10 at a non-empty file: the empty `old_text` fails and the
file system is unchanged. -/
theorem edit_file_empty_old_witness :
    wXy (envNo.resolve "f.txt") = some ("x\ny".data) ∧
    ("x\ny".data ≠ ([] : List Char)) ∧
    ((edit_file envNo wXy "f.txt" "" "ZZ").1 =
      [("success", .bool false),
       ("error", .str ("old_text appears " ++
         toString (("x\ny" : String).data.length + 1) ++
         " times in file - include more surrounding context to make it unique")),
       ("path", .str (envNo.resolve "f.txt"))] ∧
     (edit_file envNo wXy "f.txt" "" "ZZ").2.1 = wXy) :=
  ⟨rfl, by decide,
   (edit_file_empty_old envNo wXy "f.txt" "ZZ" "x\ny".data rfl).2.1 (by decide)⟩

/-! ### C9 — the fail-open default branch of the gate is unreachable -/

/-- C9: an unknown tool name is rejected by the dispatcher before the gate is
consulted (no effect is recorded and the unknown-tool failure is immediate),
and for every name in the registry the gate decides in one of its earlier
branches — the fail-open final return (marked `Effect.gateDefaultBranch`) is
never reached. -/
theorem gate_fail_open_unreachable :
    (∀ (env : Env) (mode : PermissionMode) (w : World) (name : String) (args : Args),
      name ∉ TOOL_NAMES →
      execute_tool env mode w name args = (.ok (unknownToolResult name), w, [])) ∧
    (∀ (env : Env) (mode : PermissionMode) (name : String) (args : Args),
      name ∈ TOOL_NAMES →
      Effect.gateDefaultBranch ∉ (check_permission env mode name args).2) := by
  constructor
  · intro env mode w name args h
    unfold execute_tool
    rw [if_neg h]
  · intro env mode name args h
    fin_cases h
    · simp [check_permission]
    · simp [check_permission]
    · -- write_file
      by_cases hy : mode = PermissionMode.yolo
      · simp [check_permission, hy]
      · by_cases ha : mode = PermissionMode.acceptEdits
        · simp [check_permission, hy, ha]
        · cases hwd : writeDetails env args with
          | error e => simp [check_permission, hy, ha, hwd]
          | ok d =>
            cases hb : (prompt_user env "Write file" d).1 <;>
              simp [check_permission, hy, ha, hwd, hb, prompt_user_trace]
    · -- edit_file
      by_cases hy : mode = PermissionMode.yolo
      · simp [check_permission, hy]
      · by_cases ha : mode = PermissionMode.acceptEdits
        · simp [check_permission, hy, ha]
        · cases hwd : editDetails env args with
          | error e => simp [check_permission, hy, ha, hwd]
          | ok d =>
            cases hb : (prompt_user env "Edit file" d).1 <;>
              simp [check_permission, hy, ha, hwd, hb, prompt_user_trace]
    · -- run_bash
      by_cases hy : mode = PermissionMode.yolo
      · simp [check_permission, hy]
      · cases hb : (prompt_user env "Run command"
            (strOfVal ((getArg args "command").getD (.str "?")))).1 <;>
          simp [check_permission, hy, hb, prompt_user_trace]
    · simp [check_permission]
    · simp [check_permission]

/-- Witness for C9 at the unknown name "frobnicate" and the registry name
"run_bash". -/
theorem gate_fail_open_unreachable_witness :
    (("frobnicate" : String) ∉ TOOL_NAMES ∧
      execute_tool envNo .default emptyW "frobnicate" [] =
        (.ok (unknownToolResult "frobnicate"), emptyW, [])) ∧
    (("run_bash" : String) ∈ TOOL_NAMES ∧
      Effect.gateDefaultBranch ∉ (check_permission envNo .default "run_bash" []).2) :=
  ⟨⟨by decide, gate_fail_open_unreachable.1 envNo .default emptyW "frobnicate" [] (by decide)⟩,
   ⟨by decide, gate_fail_open_unreachable.2 envNo .default "run_bash" [] (by decide)⟩⟩

/-! ### C1 and C2 — the interceptor runs after the gate, not before -/

/-- The single-tool-call model response used by the C5 evaluation. -/
def respOne : ChatResp :=
  ⟨some "", none, [("read_file", [("filename", Val.str "a.txt")])]⟩

/-- A file system holding one file `a.txt`. -/
def wA : World := fun x => if x = "a.txt" then some "hi".data else none

/-- A transport oracle that succeeds on the first call of a turn and fails
on every follow-up call. -/
def envFlaky : Env := { envNo with
  chat := fun msgs =>
    if msgs.length ≤ 1 then .ok respOne else .error "connection refused" }

/-- C1 (code-bug evaluation): "shutdown" matches the dangerous-pattern table,
yet under default mode the dispatcher prompts the user first, and when the
user declines, the result is the plain decline failure — no `blocked` flag,
no pattern explanation — contradicting the claim that every dispatch of a
dangerous command returns a blocked result under every mode.  (Under yolo
the blocked result is produced, with no prompt and no shell invocation.) -/
theorem dangerous_command_decline_not_blocked :
    check_dangerous_command "shutdown" = ⟨true, "Shuts down the computer"⟩ ∧
    execute_tool envNo .default emptyW "run_bash" [("command", Val.str "shutdown")] =
      (.ok [("success", Val.bool false),
        ("error", Val.str "User declined to run command")],
       emptyW, [Effect.prompted "Run command" "shutdown"]) ∧
    execute_tool envNo .yolo emptyW "run_bash" [("command", Val.str "shutdown")] =
      (.ok (blockedResult "shutdown" "Shuts down the computer"), emptyW, []) :=
  ⟨rfl, rfl, rfl⟩

/-- C2 (code-bug evaluation): for the dangerous command "shutdown" under
default mode the permission gate runs — and prompts — before the
interceptor: the prompt effect is recorded even though the result is the
blocked one, contradicting the claimed interceptor-before-gate order. -/
theorem gate_prompts_before_interceptor :
    check_dangerous_command "shutdown" = ⟨true, "Shuts down the computer"⟩ ∧
    execute_tool envYes .default emptyW "run_bash" [("command", Val.str "shutdown")] =
      (.ok (blockedResult "shutdown" "Shuts down the computer"), emptyW,
       [Effect.prompted "Run command" "shutdown"]) :=
  ⟨rfl, rfl⟩

/-! ### C3 — dispatcher totality

The dispatcher's `try` starts only after `check_permission`; the gate can
raise on non-string argument values (e.g. an integer `content` under default
mode reaches `content.count` and raises `AttributeError`), and that
exception escapes `execute_tool`.  For argument mappings whose values are
all strings, the gate cannot raise and every branch of the `try` converts
errors to failure results, so the dispatcher is total. -/

/-- A result dictionary carrying a Boolean success flag. -/
def hasSuccessFlag (d : PyDict) : Prop :=
  ∃ b, dictGet d "success" = some (Val.bool b)

/-- C3 counterexample: `write_file` with integer content 5 under default
mode raises out of `check_permission` and the exception escapes the
dispatcher. -/
theorem execute_tool_exception_escapes :
    (execute_tool envNo .default emptyW "write_file"
      [("path", Val.str "f.txt"), ("content", Val.int 5)]).1 =
      .error (.attrErr "object has no attribute count") :=
  rfl

theorem read_file_success_flag (env : Env) (w : World) (fn : String) :
    hasSuccessFlag (read_file env w fn).1 := by
  cases hw : w (env.resolve fn) with
  | none => exact ⟨false, by simp [read_file, dictGet, hw]⟩
  | some content => exact ⟨true, by simp [read_file, dictGet, hw]⟩

theorem list_files_success_flag (env : Env) (w : World) (p : String) :
    hasSuccessFlag (list_files env w p).1 := by
  by_cases hd : env.isDir (env.resolve p)
  · exact ⟨true, by simp [list_files, dictGet, hd]⟩
  · exact ⟨false, by simp [list_files, dictGet, hd]⟩

theorem write_file_success_flag (env : Env) (w : World) (p c : String) :
    hasSuccessFlag (write_file env w p c).1 :=
  ⟨true, rfl⟩

theorem edit_file_success_flag (env : Env) (w : World) (p o n : String) :
    hasSuccessFlag (edit_file env w p o n).1 := by
  cases hw : w (env.resolve p) with
  | none => exact ⟨false, by simp [edit_file, dictGet, hw]⟩
  | some content =>
    by_cases h0 : pyCountL o.data content = 0
    · exact ⟨false, by simp [edit_file, dictGet, hw, h0]⟩
    · by_cases h1 : pyCountL o.data content > 1
      · exact ⟨false, by simp [edit_file, dictGet, hw, h0, h1]⟩
      · exact ⟨true, by simp [edit_file, dictGet, hw, h0, h1]⟩

theorem run_bash_success_flag (env : Env) (w : World) (cmd : String)
    (tv olv : Val) {dwt} (h : run_bash env w cmd tv olv = .ok dwt) :
    hasSuccessFlag dwt.1 := by
  simp only [run_bash] at h
  split at h
  · cases h; exact ⟨_, rfl⟩
  · split at h
    · cases h
    · split at h <;> (cases h; exact ⟨_, rfl⟩)

theorem callExecutor_success_flag (env : Env) (w : World) (name : String)
    (args : Args) {dwt} (h : callExecutor env w name args = .ok dwt) :
    hasSuccessFlag dwt.1 := by
  unfold callExecutor at h
  split_ifs at h <;> repeat' split at h
  all_goals
    first
    | (cases h; apply read_file_success_flag)
    | (cases h; apply list_files_success_flag)
    | (cases h; apply write_file_success_flag)
    | (cases h; apply edit_file_success_flag)
    | (cases h; exact ⟨_, rfl⟩)
    | cases h
    | exact run_bash_success_flag env w _ _ _ h

theorem webSearchBody_success_flag (env : Env) (args : Args) {d}
    (h : webSearchBody env args = .ok d) : hasSuccessFlag d := by
  simp only [webSearchBody] at h
  repeat' split at h
  all_goals first | (cases h; exact ⟨_, rfl⟩) | cases h

theorem webFetchBody_success_flag (env : Env) (args : Args) {d}
    (h : webFetchBody env args = .ok d) : hasSuccessFlag d := by
  simp only [webFetchBody] at h
  repeat' split at h
  all_goals first | (cases h; exact ⟨_, rfl⟩) | cases h

/-- With all-string argument values, the write-prompt details cannot raise. -/
theorem writeDetails_ok_of_str (env : Env) (args : Args)
    (hstr : ∀ kv ∈ args, ∃ s, kv.2 = Val.str s) :
    ∃ d, writeDetails env args = .ok d := by
  unfold writeDetails relPathOfArg contentLineCount
  cases hp : getArg args "path" with
  | none =>
    cases hc : getArg args "content" with
    | none => exact ⟨_, rfl⟩
    | some v =>
      obtain ⟨s, rfl⟩ := str_of_getArg hstr hc
      simp only [Option.getD]
      cases ht : pyTruthy (Val.str s) <;> simp [ht, valCountNl]
  | some v =>
    obtain ⟨s, rfl⟩ := str_of_getArg hstr hp
    cases hc : getArg args "content" with
    | none => exact ⟨_, rfl⟩
    | some v2 =>
      obtain ⟨s2, rfl⟩ := str_of_getArg hstr hc
      simp only [Option.getD]
      cases ht : pyTruthy (Val.str s2) <;> simp [ht, valCountNl]

/-- A string preview never raises. -/
theorem previewOfVal_ok_str (s : String) : ∃ d, previewOfVal (Val.str s) = .ok d := by
  unfold previewOfVal valLen
  by_cases hl : s.length > 50 <;> simp [hl]

/-- With all-string argument values, the edit-prompt details cannot raise. -/
theorem editDetails_ok_of_str (env : Env) (args : Args)
    (hstr : ∀ kv ∈ args, ∃ s, kv.2 = Val.str s) :
    ∃ d, editDetails env args = .ok d := by
  have hpath : ∃ p, relPathOfArg env args = .ok p := by
    unfold relPathOfArg
    cases hp : getArg args "path" with
    | none => exact ⟨_, rfl⟩
    | some v =>
      obtain ⟨s, rfl⟩ := str_of_getArg hstr hp
      exact ⟨_, rfl⟩
  have hold : ∃ d, previewOfVal ((getArg args "old_text").getD (.str "")) = .ok d := by
    cases ho : getArg args "old_text" with
    | none => exact previewOfVal_ok_str ""
    | some v =>
      obtain ⟨s, rfl⟩ := str_of_getArg hstr ho
      exact previewOfVal_ok_str s
  have hnew : ∃ d, previewOfVal ((getArg args "new_text").getD (.str "")) = .ok d := by
    cases hn : getArg args "new_text" with
    | none => exact previewOfVal_ok_str ""
    | some v =>
      obtain ⟨s, rfl⟩ := str_of_getArg hstr hn
      exact previewOfVal_ok_str s
  obtain ⟨p, hp⟩ := hpath
  obtain ⟨od, hod⟩ := hold
  obtain ⟨nd, hnd⟩ := hnew
  unfold editDetails
  rw [hp, hod, hnd]
  exact ⟨_, rfl⟩

/-- With all-string argument values, the permission gate cannot raise. -/
theorem check_permission_ok_of_str (env : Env) (mode : PermissionMode)
    (name : String) (args : Args)
    (hstr : ∀ kv ∈ args, ∃ s, kv.2 = Val.str s) :
    ∃ res tr, check_permission env mode name args = (.ok res, tr) := by
  unfold check_permission
  split_ifs with h1 h2 h3 h4 h5 h6 h7
  · exact ⟨_, _, rfl⟩
  · exact ⟨_, _, rfl⟩
  · exact ⟨_, _, rfl⟩
  · obtain ⟨d, hd⟩ := writeDetails_ok_of_str env args hstr
    rw [hd]
    cases hb : (prompt_user env "Write file" d).1 <;> simp [hb]
  · exact ⟨_, _, rfl⟩
  · obtain ⟨d, hd⟩ := editDetails_ok_of_str env args hstr
    rw [hd]
    cases hb : (prompt_user env "Edit file" d).1 <;> simp [hb]
  · cases hb : (prompt_user env "Run command"
        (strOfVal ((getArg args "command").getD (.str "?")))).1 <;> simp [hb]
  · exact ⟨_, _, rfl⟩

/-- C3 (amended): for every tool name and every argument mapping whose
values are all strings, the dispatcher returns a result dictionary carrying
a Boolean success flag and never propagates an exception; an unknown tool
name yields the immediate unknown-tool failure with no effect.  (Without the
all-string restriction the claim fails: see the counterexample, where an
integer `content` raises out of the gate.) -/
theorem execute_tool_total_for_str_args (env : Env) (mode : PermissionMode)
    (w : World) (name : String) (args : Args)
    (hstr : ∀ kv ∈ args, ∃ s, kv.2 = Val.str s) :
    (∃ d w' tr, execute_tool env mode w name args = (.ok d, w', tr) ∧
      hasSuccessFlag d) ∧
    (name ∉ TOOL_NAMES →
      execute_tool env mode w name args = (.ok (unknownToolResult name), w, [])) := by
  constructor
  · by_cases hmem : name ∈ TOOL_NAMES
    · obtain ⟨res, tr, hcp⟩ := check_permission_ok_of_str env mode name args hstr
      unfold execute_tool
      simp only [hmem, if_true, hcp]
      repeat' split
      all_goals
        first
        | exact ⟨_, _, _, rfl, ⟨false, rfl⟩⟩
        | (rename_i heq; exact ⟨_, _, _, rfl, webSearchBody_success_flag env args heq⟩)
        | (rename_i heq; exact ⟨_, _, _, rfl, webFetchBody_success_flag env args heq⟩)
        | (rename_i heq; exact ⟨_, _, _, rfl, callExecutor_success_flag env w name args heq⟩)
    · refine ⟨unknownToolResult name, w, [], ?_, ⟨false, rfl⟩⟩
      unfold execute_tool
      rw [if_neg hmem]
  · intro h
    unfold execute_tool
    rw [if_neg h]

/-- Witness for C3 (amended) at a concrete all-string mapping. -/
theorem execute_tool_total_for_str_args_witness :
    (∀ kv ∈ ([("command", Val.str "echo hi")] : Args), ∃ s, kv.2 = Val.str s) ∧
    ((∃ d w' tr, execute_tool envNo .yolo emptyW "run_bash"
        [("command", Val.str "echo hi")] = (.ok d, w', tr) ∧ hasSuccessFlag d) ∧
     (("run_bash" : String) ∉ TOOL_NAMES →
       execute_tool envNo .yolo emptyW "run_bash" [("command", Val.str "echo hi")] =
         (.ok (unknownToolResult "run_bash"), emptyW, []))) :=
  ⟨fun kv hkv => by
      simp only [List.mem_singleton] at hkv
      subst hkv
      exact ⟨"echo hi", rfl⟩,
   execute_tool_total_for_str_args envNo .yolo emptyW "run_bash"
     [("command", Val.str "echo hi")]
     (fun kv hkv => by
       simp only [List.mem_singleton] at hkv
       subst hkv
       exact ⟨"echo hi", rfl⟩)⟩

/-! ### C5 — transport-failure rollback -/

/-- C5 (code-bug evaluation): when the transport fails on the follow-up call
after one tool round, `messages.pop()` removes the last tool message, not
the pending user message: the turn ends in the transport-failed state with
the user message (and the assistant message) still in the history, although
the history before the turn was empty. -/
theorem transport_failure_keeps_user_message :
    userTurn envFlaky .default 5 wA [] "hi" =
      .transportFailed [Msg.userM "hi", Msg.assistantM respOne] wA :=
  rfl

end TerminalAgent
